import Mathlib

/-
Verification of the rs-retry CDN fallback handler.

The development shallowly embeds src/cdn-error-handler.ts and
src/defConfig.ts: JS strings become lists of characters, DOM elements
become records of the attributes the handler reads and writes, and the
deferred callbacks (setTimeout bodies, probe handlers) become explicit
task data applied by separate functions.
-/

abbrev Str := List Char

/-- Boolean test that the first list is an initial segment of the second.
This models the anchored part of the regex produced by getCdnUrlRegex:
the regex only ever matches at the start of the subject string because
of the caret anchor. -/
def leadsWith : Str → Str → Bool
  | [], _ => true
  | _ :: _, [] => false
  | a :: as, b :: bs => if a = b then leadsWith as bs else false

/-- Boolean substring containment, modelling JS String.prototype.includes. -/
def containsSeq (needle : Str) : Str → Bool
  | [] => leadsWith needle []
  | c :: rest => leadsWith needle (c :: rest) || containsSeq needle rest

def slashStr : Str := ("/".toList)

/-- The concrete string matched by getCdnUrlRegex when the optional
protocol group matches "https:".  The domain is escaped in the source so
it is matched literally. -/
def httpsPre (cdnDomain : Str) : Str := ("https://".toList) ++ cdnDomain ++ slashStr

/-- The concrete string matched by getCdnUrlRegex when the optional
protocol group matches "http:". -/
def httpPre (cdnDomain : Str) : Str := ("http://".toList) ++ cdnDomain ++ slashStr

/-- The concrete string matched by getCdnUrlRegex when the optional
protocol group is empty (protocol-relative URL). -/
def relPre (cdnDomain : Str) : Str := ("//".toList) ++ cdnDomain ++ slashStr

/-- Model of url.replace(getCdnUrlRegex(), fallbackDomain + "/").
The regex is "^(https?:)?//" + escapedDomain + "/" with the global flag;
since the caret restricts matching to position zero, at most one
replacement happens, at the start of the string.  The optional group is
tried greedily: "https:" first, then "http:", then empty; on the level
of whole prefixes the three alternatives are mutually exclusive. -/
def cdnReplaceStart (cdnDomain fallbackDomain url : Str) : Str :=
  if leadsWith (httpsPre cdnDomain) url then
    fallbackDomain ++ slashStr ++ url.drop (httpsPre cdnDomain).length
  else if leadsWith (httpPre cdnDomain) url then
    fallbackDomain ++ slashStr ++ url.drop (httpPre cdnDomain).length
  else if leadsWith (relPre cdnDomain) url then
    fallbackDomain ++ slashStr ++ url.drop (relPre cdnDomain).length
  else url

/-- Active configuration (interface RsRetryConfig).  Fields that the
shipped defConfig.ts does not populate are optional here, mirroring the
fact that reading them in JS may yield undefined. -/
structure Config where
  cdnDomain : Str
  fallbackDomain : Str
  testTimeout : Option Nat
  testImagePath : Option Str
  enableSentry : Option Bool
deriving DecidableEq, Repr

/-- Model of isCdnUrl: falsy URLs are rejected, otherwise substring
containment of config.cdnDomain. -/
def isCdnUrl (cfg : Config) : Option Str → Bool
  | none => false
  | some u => if u = [] then false else containsSeq cfg.cdnDomain u

/-- Model of generateFallbackUrl: one anchored regex replacement. -/
def generateFallbackUrl (cfg : Config) (cdnUrl : Str) : Str :=
  cdnReplaceStart cfg.cdnDomain cfg.fallbackDomain cdnUrl

/-- Model of isBackgroundFallbackEnabled: Boolean(config.testImagePath). -/
def isBackgroundFallbackEnabled (cfg : Config) : Bool :=
  match cfg.testImagePath with
  | some s => decide (s ≠ [])
  | none => false

/-- Processing concern, type RsHandleType = "error" | "background". -/
inductive RsHandleType where
  | error
  | background
deriving DecidableEq, Repr

/-- A picture-parent source sibling, mirrored by the attributes the
handler reads and writes on it: its srcset attribute and its
data-cdn-error-handled mark. -/
structure SourceElem where
  srcset : Option Str
  cdnErrorHandled : Option Str
deriving DecidableEq, Repr

/-- A DOM element, mirrored by the attributes, style entries and dataset
entries the handler reads and writes.  The picture-parent relation of an
image is carried as parentIsPicture plus the list of source siblings;
the computed background image is carried as a snapshot field (the value
window.getComputedStyle would report with the bg-lazy class removed). -/
structure Elem where
  tagName : Str
  src : Option Str
  href : Option Str
  srcset : Option Str
  rel : Str
  async : Bool
  deferAttr : Bool
  typeAttr : Str
  media : Str
  parentIsPicture : Bool
  pictureSources : List SourceElem
  classList : List Str
  styleDisplay : Str
  styleBackgroundImage : Str
  computedBackgroundImage : Str
  cdnErrorHandled : Option Str
  cdnBackgroundProcessed : Option Str
  cdnFallbackUrl : Option Str
  cdnFallbackPending : Option Str
deriving DecidableEq, Repr

/-- A freshly created element (document.createElement): every attribute
empty or absent. -/
def emptyElem : Elem :=
  { tagName := [], src := none, href := none, srcset := none, rel := [],
    async := false, deferAttr := false, typeAttr := [], media := [],
    parentIsPicture := false, pictureSources := [], classList := [],
    styleDisplay := [], styleBackgroundImage := [],
    computedBackgroundImage := [], cdnErrorHandled := none,
    cdnBackgroundProcessed := none, cdnFallbackUrl := none,
    cdnFallbackPending := none }

/-- Model of markElementProcessed. -/
def markElementProcessed (e : Elem) : RsHandleType → Elem
  | .error => { e with cdnErrorHandled := some ("true".toList) }
  | .background => { e with cdnBackgroundProcessed := some ("true".toList) }

/-- Model of isElementProcessed: strict comparison with the string
"true". -/
def isElementProcessed (e : Elem) : RsHandleType → Bool
  | .error => decide (e.cdnErrorHandled = some ("true".toList))
  | .background => decide (e.cdnBackgroundProcessed = some ("true".toList))

/-- JS truthy-or on string attributes: a || b takes b when a is absent
or empty. -/
def jsOrStr : Option Str → Option Str → Option Str
  | some s, b => if s = [] then b else some s
  | none, b => b

/-- One picture source as treated inside handleImageFallback: the
querySelectorAll filter keeps sources whose srcset attribute contains
the delivery domain, then the already-processed guard, the truthiness
and isCdnUrl checks, and finally the rewrite plus the mark. -/
def processPictureSource (cfg : Config) (s : SourceElem) : SourceElem :=
  match s.srcset with
  | none => s
  | some ss =>
    if ¬ containsSeq cfg.cdnDomain ss then s
    else if s.cdnErrorHandled = some ("true".toList) then s
    else if ss ≠ [] ∧ isCdnUrl cfg (some ss) then
      { srcset := some (generateFallbackUrl cfg ss),
        cdnErrorHandled := some ("true".toList) }
    else s

/-- Model of handleImageFallback.  The source siblings are rewritten,
the src attribute is removed synchronously, and the reassignment of the
rewritten URL is returned as deferred data (the setTimeout body). -/
def handleImageFallback (cfg : Config) (img : Elem) (fallbackUrl : Str) :
    Elem × List Str :=
  let sources :=
    if img.parentIsPicture then img.pictureSources.map (processPictureSource cfg)
    else img.pictureSources
  ({ img with pictureSources := sources, src := none }, [fallbackUrl])

/-- Model of handleScriptFallback: the new script element appended to
the document head. -/
def handleScriptFallback (script : Elem) (fallbackUrl : Str) : Elem :=
  { emptyElem with
    tagName := ("SCRIPT".toList), src := some fallbackUrl,
    async := script.async, deferAttr := script.deferAttr,
    typeAttr := script.typeAttr }

/-- Model of handleLinkFallback: the new stylesheet link appended to the
document head. -/
def handleLinkFallback (link : Elem) (fallbackUrl : Str) : Elem :=
  { emptyElem with
    tagName := ("LINK".toList), rel := ("stylesheet".toList),
    href := some fallbackUrl, typeAttr := ("text/css".toList),
    media := link.media }

/-- Result of handleResourceError: the element after the synchronous
part, the deferred src reassignments scheduled for it, and the new
fallback elements appended to the document head. -/
structure HREResult where
  elem : Elem
  deferredSrc : List Str
  created : List Elem
deriving DecidableEq, Repr

/-- Model of handleResourceError. -/
def handleResourceError (cfg : Config) (e : Elem) : HREResult :=
  let resourceUrl := jsOrStr e.src e.href
  if isElementProcessed e .error then
    let e1 := { e with cdnErrorHandled := some ("failed".toList) }
    let e2 :=
      if e1.tagName = ("IMG".toList) then { e1 with styleDisplay := ("none".toList) }
      else e1
    ⟨e2, [], []⟩
  else if ¬ isCdnUrl cfg resourceUrl then ⟨e, [], []⟩
  else
    let fallbackUrl := generateFallbackUrl cfg (resourceUrl.getD [])
    let e1 := markElementProcessed e .error
    if e1.tagName = ("SCRIPT".toList) then
      ⟨e1, [], [handleScriptFallback e1 fallbackUrl]⟩
    else if e1.tagName = ("LINK".toList) ∧ e1.rel = ("stylesheet".toList) then
      ⟨e1, [], [handleLinkFallback e1 fallbackUrl]⟩
    else if e1.tagName = ("IMG".toList) then
      let r := handleImageFallback cfg e1 fallbackUrl
      ⟨r.1, r.2, []⟩
    else ⟨e1, [], []⟩

/-- Run the deferred src reassignments scheduled for an element. -/
def applyDeferredSrc (e : Elem) (urls : List Str) : Elem :=
  urls.foldl (fun a u => { a with src := some u }) e

def doubleQuote : Char := Char.ofNat 34

def singleQuote : Char := Char.ofNat 39

/-- Character class of the background-image URL pattern: the captured
body consists of characters that are not a quote and not a closing
parenthesis. -/
def isUrlBodyChar (c : Char) : Bool :=
  ¬ (c = doubleQuote ∨ c = singleQuote ∨ c = ')')

/-- After the literal part and the optional opening quote of the
background-image URL pattern have been consumed: the non-empty captured
body, the optional closing quote, and the closing parenthesis.  Returns
the capture and the remainder of the subject after the match. -/
def urlPatternBody (s : Str) : Option (Str × Str) :=
  let body := s.takeWhile isUrlBodyChar
  let rest := s.dropWhile isUrlBodyChar
  if body = [] then none
  else
    match rest with
    | [] => none
    | c :: r2 =>
      if c = ')' then some (body, r2)
      else
        match r2 with
        | ')' :: r3 => some (body, r3)
        | _ => none

/-- One attempt of the background-image URL pattern at the current
position: the literal "url(", an optional opening quote, then the
body. -/
def urlPatternAt (s : Str) : Option (Str × Str) :=
  if leadsWith ("url(".toList) s then
    match s.drop 4 with
    | [] => none
    | c :: r2 =>
      if c = doubleQuote ∨ c = singleQuote then urlPatternBody r2
      else urlPatternBody (c :: r2)
  else none

/-- Global scan of the background-image URL pattern, modelling
computedStyle.match with the global flag followed by the per-match
capture extraction: matches are found left to right, scanning resumes
after each match. -/
def extractUrlsFuel : Nat → Str → List Str
  | 0, _ => []
  | _ + 1, [] => []
  | fuel + 1, c :: rest =>
    match urlPatternAt (c :: rest) with
    | some (cap, after) => cap :: extractUrlsFuel fuel after
    | none => extractUrlsFuel fuel rest

def extractUrls (s : Str) : List Str := extractUrlsFuel s.length s

/-- Global literal replacement, modelling
currentStyle.replace(new RegExp(escapedUrl, "g"), fallbackUrl): the
escaping makes the needle literal, matches are non-overlapping, left to
right. -/
def replaceSubFuel (needle repl : Str) : Nat → Str → Str
  | 0, s => s
  | _ + 1, [] => []
  | fuel + 1, c :: rest =>
    if needle ≠ [] ∧ leadsWith needle (c :: rest) then
      repl ++ replaceSubFuel needle repl fuel ((c :: rest).drop needle.length)
    else c :: replaceSubFuel needle repl fuel rest

def replaceSub (needle repl s : Str) : Str :=
  replaceSubFuel needle repl s.length s

/-- Model of replaceInlineBackgroundImage: returns the element and the
handled flag.  The replacement uses the same anchored regex as
generateFallbackUrl. -/
def replaceInlineBackgroundImage (cfg : Config) (e : Elem) : Elem × Bool :=
  if ¬ isBackgroundFallbackEnabled cfg then (e, false)
  else
    let inlineStyle := e.styleBackgroundImage
    if inlineStyle = [] ∨ ¬ isCdnUrl cfg (some inlineStyle) then (e, false)
    else
      ({ e with styleBackgroundImage :=
          cdnReplaceStart cfg.cdnDomain cfg.fallbackDomain inlineStyle }, true)

/-- The forEach body of replaceComputedBackgroundImage over the
extracted background URLs. -/
def applyUrls (cfg : Config) (hasBgLazy : Bool) : List Str → Elem → Elem
  | [], e => e
  | url :: rest, e =>
    let e1 :=
      if url = [] ∨ ¬ isCdnUrl cfg (some url) then e
      else
        let fallbackUrl := generateFallbackUrl cfg url
        if hasBgLazy then { e with cdnFallbackUrl := some fallbackUrl }
        else
          let currentStyle := e.styleBackgroundImage
          if currentStyle ≠ [] ∧ currentStyle ≠ ("none".toList) then
            { e with styleBackgroundImage := replaceSub url fallbackUrl currentStyle }
          else
            { e with styleBackgroundImage :=
                ("url(\"".toList) ++ fallbackUrl ++ ("\")".toList) }
    applyUrls cfg hasBgLazy rest e1

/-- Model of replaceComputedBackgroundImage. -/
def replaceComputedBackgroundImage (cfg : Config) (e : Elem) (hasBgLazy : Bool) :
    Elem :=
  if ¬ isBackgroundFallbackEnabled cfg then e
  else
    let cs := e.computedBackgroundImage
    if cs = [] ∨ cs = ("none".toList) ∨ cs = ("inherit".toList) then e
    else
      match extractUrls cs with
      | [] => e
      | u :: us => applyUrls cfg hasBgLazy (u :: us) e

def bgLazyClass : Str := ("bg-lazy".toList)

/-- DOM classList.remove. -/
def classRemove (l : List Str) (c : Str) : List Str :=
  l.filter (fun x => x ≠ c)

/-- DOM classList.add. -/
def classAdd (l : List Str) (c : Str) : List Str :=
  if c ∈ l then l else l ++ [c]

/-- Model of replaceBackgroundImage: inline style first, then the scoped
bg-lazy toggle around the computed-style pass. -/
def replaceBackgroundImage (cfg : Config) (e : Elem) : Elem :=
  if ¬ isBackgroundFallbackEnabled cfg then e
  else
    let r := replaceInlineBackgroundImage cfg e
    if r.2 then r.1
    else
      let hasBgLazy := bgLazyClass ∈ r.1.classList
      let e2 :=
        if hasBgLazy then { r.1 with classList := classRemove r.1.classList bgLazyClass }
        else r.1
      let e3 := replaceComputedBackgroundImage cfg e2 hasBgLazy
      if hasBgLazy then { e3 with classList := classAdd e3.classList bgLazyClass }
      else e3

/-- The per-element body of checkElementBackground once all guards have
passed: replaceBackgroundImage, then the background mark. -/
def checkElementBackgroundStep (cfg : Config) (e : Elem) : Elem :=
  if ¬ isElementProcessed e .background then
    markElementProcessed (replaceBackgroundImage cfg e) .background
  else e

/-- Model of checkElementBackground.  The argument is the resolved
target: none when the selector matches no element, otherwise the element
together with the querySelectorAll("*") list of its descendants.  A
guarded return leaves the document unchanged, which the model expresses
by returning the input. -/
def checkElementBackground (cfg : Config) (cdnAvailable : Option Bool)
    (target : Option (Elem × List Elem)) : Option (Elem × List Elem) :=
  match target with
  | none => none
  | some (el, children) =>
    if cdnAvailable ≠ some false ∨ ¬ isBackgroundFallbackEnabled cfg then
      some (el, children)
    else
      some (checkElementBackgroundStep cfg el,
        children.map (checkElementBackgroundStep cfg))

/-- Truthiness of an optional string attribute. -/
def truthyAttr : Option Str → Bool
  | none => false
  | some s => decide (s ≠ [])

/-- Per-node result of the dynamic-content watcher: the element after
the synchronous part, the deferred src reassignments, the created
fallback elements, and whether a deferred background pass (the 50 ms
setTimeout calling replaceBackgroundImage then marking the element) was
scheduled for it. -/
structure NodeResult where
  elem : Elem
  deferredSrc : List Str
  created : List Elem
  deferredBg : Bool
deriving DecidableEq, Repr

/-- A node the watcher did not touch. -/
def pureNode (e : Elem) : NodeResult := ⟨e, [], [], false⟩

/-- Attribute-substring selection, modelling the [attr*=value] CSS
selector on an optional attribute. -/
def attrContains (needle : Str) : Option Str → Bool
  | some s => containsSeq needle s
  | none => false

/-- The watcher body applied to one descendant of an inserted node: the
img[src*=cdnDomain] selection followed by the processed guard and
handleResourceError. -/
def watchDescendantImg (cfg : Config) (d : Elem) : NodeResult :=
  if d.tagName = ("IMG".toList) ∧ attrContains cfg.cdnDomain d.src then
    if ¬ isElementProcessed d .error then
      let r := handleResourceError cfg d
      ⟨r.elem, r.deferredSrc, r.created, false⟩
    else pureNode d
  else pureNode d

/-- The background part of the watcher applied to one descendant: the
.bg-lazy pending flag, then the deferred background pass for every
descendant that is not background-processed yet. -/
def watchDescendantBg (cfg : Config) (nr : NodeResult) : NodeResult :=
  if ¬ isBackgroundFallbackEnabled cfg then nr
  else
    let e1 :=
      if bgLazyClass ∈ nr.elem.classList then
        { nr.elem with cdnFallbackPending := some ("true".toList) }
      else nr.elem
    ⟨e1, nr.deferredSrc, nr.created, ¬ isElementProcessed e1 .background⟩

/-- Model of handleNewElement.  The inserted node is given together with
the querySelectorAll("*") list of its descendants. -/
def handleNewElement (cfg : Config) (cdnAvailable : Option Bool)
    (node : Elem) (descendants : List Elem) : NodeResult × List NodeResult :=
  if cdnAvailable ≠ some false then (pureNode node, descendants.map pureNode)
  else if node.tagName = ("IMG".toList) ∧ truthyAttr node.src
      ∧ isCdnUrl cfg node.src then
    if ¬ isElementProcessed node .error then
      let r := handleResourceError cfg node
      (⟨r.elem, r.deferredSrc, r.created, false⟩, descendants.map pureNode)
    else (pureNode node, descendants.map pureNode)
  else if node.tagName = ("SOURCE".toList) ∧ truthyAttr node.srcset
      ∧ isCdnUrl cfg node.srcset then
    if ¬ isElementProcessed node .error then
      let fb := generateFallbackUrl cfg (node.srcset.getD [])
      (pureNode { (markElementProcessed node .error) with srcset := some fb },
        descendants.map pureNode)
    else (pureNode node, descendants.map pureNode)
  else
    let node1 :=
      if isBackgroundFallbackEnabled cfg ∧ bgLazyClass ∈ node.classList then
        { node with cdnFallbackPending := some ("true".toList) }
      else node
    let descr1 := descendants.map (watchDescendantImg cfg)
    let descr2 := descr1.map (watchDescendantBg cfg)
    let nodeDefBg := isBackgroundFallbackEnabled cfg
      ∧ ¬ isElementProcessed node1 .background
    (⟨node1, [], [], nodeDefBg⟩, descr2)

/-- State of one probe run: the completion guard, the stored process-wide
probe result, and the list of callback invocations so far. -/
structure ProbeState where
  completed : Bool
  result : Option Bool
  calls : List Bool
deriving DecidableEq, Repr

def initProbeState : ProbeState := ⟨false, none, []⟩

/-- Model of the internal complete function of testCdnAvailability:
first call wins, later calls are discarded. -/
def probeComplete (s : ProbeState) (isAvailable : Bool) : ProbeState :=
  if s.completed then s
  else ⟨true, some isAvailable, s.calls ++ [isAvailable]⟩

/-- The events that can reach a probe run, in the order the event loop
delivers them. -/
inductive ProbeEvent where
  | load
  | error
  | timeout
deriving DecidableEq, Repr

/-- The value each probe handler passes to complete: load resolves
Available, error and the testTimeout timer resolve Unavailable. -/
def probeEventValue : ProbeEvent → Bool
  | .load => true
  | .error => false
  | .timeout => false

def probeStep (s : ProbeState) (ev : ProbeEvent) : ProbeState :=
  probeComplete s (probeEventValue ev)

def probeRun (s : ProbeState) (evs : List ProbeEvent) : ProbeState :=
  evs.foldl probeStep s

/-- Outcome of entering testCdnAvailability: either an immediate callback
with the given value (and the possibly updated stored result), or a
started probe run. -/
inductive ProbeOutcome where
  | immediate (callbackValue : Bool) (stored : Option Bool)
  | started (s : ProbeState)
deriving DecidableEq, Repr

/-- Model of the entry of testCdnAvailability: no test image path means
immediate Available; a decided result is returned from cache; otherwise
a probe run starts undecided. -/
def testCdnAvailability (cfg : Config) (cdnAvailable : Option Bool) :
    ProbeOutcome :=
  if ¬ truthyAttr cfg.testImagePath then .immediate true (some true)
  else
    match cdnAvailable with
    | some b => .immediate b (some b)
    | none => .started initProbeState

/-- The option object accepted by init: every field of RsRetryConfig is
optional. -/
structure InitOptions where
  cdnDomain : Option Str
  fallbackDomain : Option Str
  testTimeout : Option Nat
  testImagePath : Option Str
  enableSentry : Option Bool
deriving DecidableEq, Repr

/-- Model of the shipped defaultConfig of defConfig.ts: only cdnDomain
and fallbackDomain are populated; testTimeout, testImagePath and
enableSentry are left undefined.  The page origin is passed explicitly
(location.origin, or none when location is undefined). -/
def defaultConfig (pageOrigin : Option Str) : Config :=
  { cdnDomain := ("mg.127.net".toList),
    fallbackDomain := (match pageOrigin with | some o => o | none => []),
    testTimeout := none, testImagePath := none, enableSentry := none }

/-- The object-spread merge of init: a supplied field overrides the
default, an omitted field keeps it. -/
def mergeConfig (d : Config) (o : InitOptions) : Config :=
  { cdnDomain := o.cdnDomain.getD d.cdnDomain,
    fallbackDomain := o.fallbackDomain.getD d.fallbackDomain,
    testTimeout := (match o.testTimeout with | some t => some t | none => d.testTimeout),
    testImagePath := (match o.testImagePath with | some p => some p | none => d.testImagePath),
    enableSentry := (match o.enableSentry with | some b => some b | none => d.enableSentry) }

/-- Model of the configuration part of init: merge over the defaults,
then replace an empty fallbackDomain by the page origin when a location
exists. -/
def initConfig (pageOrigin : Option Str) (o : InitOptions) : Config :=
  let c := mergeConfig (defaultConfig pageOrigin) o
  if c.fallbackDomain = [] then
    match pageOrigin with
    | some org => { c with fallbackDomain := org }
    | none => c
  else c

/-- The per-element body of replaceAllImages: the img[src*=cdnDomain]
selection, the processed guard, the isCdnUrl check, then the mark and
the synchronous src rewrite. -/
def replaceAllImagesStep (cfg : Config) (img : Elem) : Elem :=
  if img.tagName = ("IMG".toList) ∧ attrContains cfg.cdnDomain img.src then
    if isElementProcessed img .error then img
    else if ¬ isCdnUrl cfg img.src then img
    else
      { (markElementProcessed img .error) with
        src := some (generateFallbackUrl cfg (img.src.getD [])) }
  else img

/-- The per-element body of replaceAllSources: the
source[srcset*=cdnDomain] selection, the processed guard, the truthiness
and isCdnUrl checks, then the rewrite and the mark. -/
def replaceAllSourcesStep (cfg : Config) (s : Elem) : Elem :=
  if s.tagName = ("SOURCE".toList) ∧ attrContains cfg.cdnDomain s.srcset then
    if isElementProcessed s .error then s
    else if ¬ truthyAttr s.srcset ∨ ¬ isCdnUrl cfg s.srcset then s
    else
      { (markElementProcessed s .error) with
        srcset := some (generateFallbackUrl cfg (s.srcset.getD [])) }
  else s

theorem leadsWith_iff (p : Str) : ∀ s, leadsWith p s = true ↔ ∃ t, s = p ++ t := by
  induction p with
  | nil => intro s; simp [leadsWith]
  | cons a as ih =>
    intro s
    cases s with
    | nil =>
      simp only [leadsWith, List.cons_append]
      constructor
      · intro h; exact absurd h (by simp)
      · rintro ⟨t, ht⟩; exact absurd ht (by simp)
    | cons b bs =>
      by_cases hab : a = b
      · subst hab
        simp [leadsWith, ih bs]
      · simp only [leadsWith, if_neg hab, List.cons_append, List.cons.injEq]
        constructor
        · intro h; exact absurd h (by simp)
        · rintro ⟨t, ht, -⟩; exact absurd ht.symm hab

theorem leadsWith_append (p t : Str) : leadsWith p (p ++ t) = true :=
  (leadsWith_iff p (p ++ t)).mpr ⟨t, rfl⟩

theorem leadsWith_total (c : Str) : ∀ a b : Str, leadsWith a c = true →
    leadsWith b c = true → leadsWith a b = true ∨ leadsWith b a = true := by
  induction c with
  | nil =>
    intro a b ha hb
    cases a with
    | nil => exact Or.inl rfl
    | cons x xs => exact absurd ha (by simp [leadsWith])
  | cons d ds ih =>
    intro a b ha hb
    cases a with
    | nil => exact Or.inl rfl
    | cons x xs =>
      cases b with
      | nil => exact Or.inr rfl
      | cons y ys =>
        by_cases hx : x = d
        · by_cases hy : y = d
          · subst hx; subst hy
            simp only [leadsWith, if_pos rfl] at ha hb ⊢
            exact ih xs ys ha hb
          · exact absurd hb (by simp [leadsWith, hy])
        · exact absurd ha (by simp [leadsWith, hx])

theorem leadsWith_snoc (c : Char) : ∀ q p : Str,
    leadsWith p (q ++ [c]) = true → leadsWith p q = true ∨ p = q ++ [c] := by
  intro q
  induction q with
  | nil =>
    intro p h
    cases p with
    | nil => exact Or.inl rfl
    | cons a as =>
      obtain ⟨t, ht⟩ := (leadsWith_iff _ _).mp h
      have hlen := congrArg List.length ht
      simp only [List.length_cons, List.length_append, List.length_nil] at hlen
      have has : as = [] := List.length_eq_zero.mp (by omega)
      have hts : t = [] := List.length_eq_zero.mp (by omega)
      subst has; subst hts
      simp only [List.nil_append, List.append_nil] at ht
      exact Or.inr ht.symm
  | cons d q ih =>
    intro p h
    cases p with
    | nil => exact Or.inl rfl
    | cons a as =>
      by_cases had : a = d
      · subst had
        simp only [List.cons_append, leadsWith, if_pos rfl] at h ⊢
        rcases ih as h with h1 | h2
        · exact Or.inl h1
        · exact Or.inr (by rw [h2])
      · exact absurd h (by simp [List.cons_append, leadsWith, had])

theorem httpsLit_eq :
    ("https://".toList) = 'h' :: 't' :: 't' :: 'p' :: 's' :: ':' :: '/' :: '/' :: [] := rfl

theorem httpLit_eq :
    ("http://".toList) = 'h' :: 't' :: 't' :: 'p' :: ':' :: '/' :: '/' :: [] := rfl

theorem relLit_eq : ("//".toList) = '/' :: '/' :: [] := rfl

theorem not_leadsWith_https_http (D x : Str) :
    leadsWith (httpsPre D) (httpPre D ++ x) = false := by
  rw [Bool.eq_false_iff]
  intro h
  obtain ⟨t, ht⟩ := (leadsWith_iff _ _).mp h
  rw [httpPre, httpsPre, httpLit_eq, httpsLit_eq] at ht
  simp only [List.cons_append, List.nil_append, List.append_assoc,
    List.cons.injEq] at ht
  exact absurd ht.2.2.2.2.1 (by decide)

theorem not_leadsWith_https_rel (D x : Str) :
    leadsWith (httpsPre D) (relPre D ++ x) = false := by
  rw [Bool.eq_false_iff]
  intro h
  obtain ⟨t, ht⟩ := (leadsWith_iff _ _).mp h
  rw [relPre, httpsPre, relLit_eq, httpsLit_eq] at ht
  simp only [List.cons_append, List.nil_append, List.append_assoc,
    List.cons.injEq] at ht
  exact absurd ht.1 (by decide)

theorem not_leadsWith_http_rel (D x : Str) :
    leadsWith (httpPre D) (relPre D ++ x) = false := by
  rw [Bool.eq_false_iff]
  intro h
  obtain ⟨t, ht⟩ := (leadsWith_iff _ _).mp h
  rw [relPre, httpPre, relLit_eq, httpLit_eq] at ht
  simp only [List.cons_append, List.nil_append, List.append_assoc,
    List.cons.injEq] at ht
  exact absurd ht.1 (by decide)

theorem cdnReplaceStart_https (D fb x : Str) :
    cdnReplaceStart D fb (httpsPre D ++ x) = fb ++ slashStr ++ x := by
  rw [cdnReplaceStart, if_pos (leadsWith_append (httpsPre D) x), List.drop_left]

theorem cdnReplaceStart_http (D fb x : Str) :
    cdnReplaceStart D fb (httpPre D ++ x) = fb ++ slashStr ++ x := by
  rw [cdnReplaceStart]
  rw [if_neg (by rw [not_leadsWith_https_http D x]; exact Bool.false_ne_true)]
  rw [if_pos (leadsWith_append (httpPre D) x), List.drop_left]

theorem cdnReplaceStart_rel (D fb x : Str) :
    cdnReplaceStart D fb (relPre D ++ x) = fb ++ slashStr ++ x := by
  rw [cdnReplaceStart]
  rw [if_neg (by rw [not_leadsWith_https_rel D x]; exact Bool.false_ne_true)]
  rw [if_neg (by rw [not_leadsWith_http_rel D x]; exact Bool.false_ne_true)]
  rw [if_pos (leadsWith_append (relPre D) x), List.drop_left]

theorem cdnReplaceStart_nomatch (D fb u : Str)
    (h1 : ¬ leadsWith (httpsPre D) u = true)
    (h2 : ¬ leadsWith (httpPre D) u = true)
    (h3 : ¬ leadsWith (relPre D) u = true) :
    cdnReplaceStart D fb u = u := by
  rw [cdnReplaceStart, if_neg h1, if_neg h2, if_neg h3]

/-- C1: for every configuration, a URL of the shape (https?:)?//D/x, with
D the configured cdnDomain (host plus optional path prefix), is rewritten
by generateFallbackUrl to exactly fallbackDomain ++ "/" ++ x, with
everything after the matched prefix (query strings included) preserved
verbatim; a URL whose start matches none of the three concrete prefix
shapes is returned unchanged. -/
theorem claim1_generateFallbackUrl (cfg : Config) (x u : Str) :
    generateFallbackUrl cfg (httpsPre cfg.cdnDomain ++ x)
        = cfg.fallbackDomain ++ slashStr ++ x
    ∧ generateFallbackUrl cfg (httpPre cfg.cdnDomain ++ x)
        = cfg.fallbackDomain ++ slashStr ++ x
    ∧ generateFallbackUrl cfg (relPre cfg.cdnDomain ++ x)
        = cfg.fallbackDomain ++ slashStr ++ x
    ∧ (¬ leadsWith (httpsPre cfg.cdnDomain) u = true →
        ¬ leadsWith (httpPre cfg.cdnDomain) u = true →
        ¬ leadsWith (relPre cfg.cdnDomain) u = true →
        generateFallbackUrl cfg u = u) := by
  refine ⟨?_, ?_, ?_, ?_⟩
  · exact cdnReplaceStart_https cfg.cdnDomain cfg.fallbackDomain x
  · exact cdnReplaceStart_http cfg.cdnDomain cfg.fallbackDomain x
  · exact cdnReplaceStart_rel cfg.cdnDomain cfg.fallbackDomain x
  · intro h1 h2 h3
    exact cdnReplaceStart_nomatch cfg.cdnDomain cfg.fallbackDomain u h1 h2 h3

theorem claim1_witness :
    (¬ leadsWith
        (httpsPre ("cdn.example/app".toList)) ("https://other.example/x.png".toList)
        = true)
    ∧ generateFallbackUrl
        ⟨("cdn.example/app".toList), ("https://app.example".toList), none, none, none⟩
        ("https://cdn.example/app/l.png?v=1".toList)
        = ("https://app.example/l.png?v=1".toList)
    ∧ generateFallbackUrl
        ⟨("cdn.example/app".toList), ("https://app.example".toList), none, none, none⟩
        ("https://other.example/x.png".toList)
        = ("https://other.example/x.png".toList) :=
  ⟨by decide,
   by
    have h := (claim1_generateFallbackUrl
      ⟨("cdn.example/app".toList), ("https://app.example".toList), none, none, none⟩
      ("l.png?v=1".toList) ("https://other.example/x.png".toList)).1
    simpa using h,
   (claim1_generateFallbackUrl
      ⟨("cdn.example/app".toList), ("https://app.example".toList), none, none, none⟩
      [] ("https://other.example/x.png".toList)).2.2.2
      (by decide) (by decide) (by decide)⟩

/-- C2 counterexample: the claim says every occurrence of the
delivery-domain prefix pattern in a srcset list is substituted; on this
concrete two-entry srcset the code substitutes only the occurrence at
the start of the string, because the regex is anchored by the caret even
though it carries the global flag. -/
theorem claim2_counterexample :
    generateFallbackUrl
        ⟨("cdn.example/app".toList), ("https://app.example".toList), none, none, none⟩
        ("//cdn.example/app/a.png 1x, //cdn.example/app/b.png 2x".toList)
      = ("https://app.example/a.png 1x, //cdn.example/app/b.png 2x".toList)
    ∧ ¬ (generateFallbackUrl
        ⟨("cdn.example/app".toList), ("https://app.example".toList), none, none, none⟩
        ("//cdn.example/app/a.png 1x, //cdn.example/app/b.png 2x".toList)
      = ("https://app.example/a.png 1x, https://app.example/b.png 2x".toList)) := by
  constructor
  · decide
  · decide

/-- C2 amended: generateFallbackUrl applies the same single anchored
substitution to single URLs and to srcset-style lists, operating on the
substring match without parsing the list structure; only a
delivery-domain prefix at the very start of the string is substituted,
and any later occurrence in the list is preserved verbatim. -/
theorem claim2_amended (cfg : Config) (x y : Str) :
    generateFallbackUrl cfg
        (relPre cfg.cdnDomain ++ x ++ (", ".toList) ++ relPre cfg.cdnDomain ++ y)
      = cfg.fallbackDomain ++ slashStr
          ++ (x ++ (", ".toList) ++ relPre cfg.cdnDomain ++ y) := by
  have h := cdnReplaceStart_rel cfg.cdnDomain cfg.fallbackDomain
    (x ++ (", ".toList) ++ relPre cfg.cdnDomain ++ y)
  simpa [generateFallbackUrl, List.append_assoc] using h

/-- C3 counterexample: with cdnDomain "cdn.example/app" and
fallbackDomain "https://app.example", an IMG with
src "https://cdn.example/app/logo.png" that goes through
handleResourceError and then the deferred src reassignment does not end
with src "https://app.example/app/logo.png": the path prefix "/app" is
part of the matched delivery prefix and is not preserved. -/
theorem claim3_counterexample :
    ¬ ((applyDeferredSrc
        (handleResourceError
          ⟨("cdn.example/app".toList), ("https://app.example".toList), none, none, none⟩
          { emptyElem with
            tagName := ("IMG".toList),
            src := some ("https://cdn.example/app/logo.png".toList) }).elem
        (handleResourceError
          ⟨("cdn.example/app".toList), ("https://app.example".toList), none, none, none⟩
          { emptyElem with
            tagName := ("IMG".toList),
            src := some ("https://cdn.example/app/logo.png".toList) }).deferredSrc).src
      = some ("https://app.example/app/logo.png".toList)) := by decide

/-- C3 amended: under the same scenario the element's new src after the
deferred reassignment is exactly "https://app.example/logo.png" — the
matched prefix "https://cdn.example/app/" (cdnDomain including its path
prefix) is replaced by fallbackDomain plus a single slash. -/
theorem claim3_amended :
    (applyDeferredSrc
        (handleResourceError
          ⟨("cdn.example/app".toList), ("https://app.example".toList), none, none, none⟩
          { emptyElem with
            tagName := ("IMG".toList),
            src := some ("https://cdn.example/app/logo.png".toList) }).elem
        (handleResourceError
          ⟨("cdn.example/app".toList), ("https://app.example".toList), none, none, none⟩
          { emptyElem with
            tagName := ("IMG".toList),
            src := some ("https://cdn.example/app/logo.png".toList) }).deferredSrc).src
      = some ("https://app.example/logo.png".toList) := by decide

theorem probeRun_completed (evs : List ProbeEvent) :
    ∀ s : ProbeState, s.completed = true → probeRun s evs = s := by
  induction evs with
  | nil => intro s _; rfl
  | cons e es ih =>
    intro s h
    have hstep : probeStep s e = s := by
      simp [probeStep, probeComplete, h]
    show (e :: es).foldl probeStep s = s
    rw [List.foldl_cons, hstep]
    exact ih s h

/-- C4: with a test image path configured and the probe result still
undecided, testCdnAvailability starts an undecided probe run; when the
testTimeout timer fires before any load or error event, the run resolves
Unavailable exactly once — the callback is invoked exactly once with
false and the stored probe result becomes false — and every load or
error event delivered afterwards, in any order and number, is discarded
by the completion guard: the callback list stays [false] and the stored
result stays false. -/
theorem claim4_probe_timeout (cfg : Config)
    (h : truthyAttr cfg.testImagePath = true) :
    testCdnAvailability cfg none = ProbeOutcome.started initProbeState
    ∧ ∀ evs : List ProbeEvent,
        probeRun (probeStep initProbeState .timeout) evs
          = ⟨true, some false, [false]⟩ := by
  constructor
  · simp [testCdnAvailability, h]
  · intro evs
    have hstep : probeStep initProbeState .timeout = ⟨true, some false, [false]⟩ := rfl
    rw [hstep]
    exact probeRun_completed evs ⟨true, some false, [false]⟩ rfl

theorem claim4_witness :
    truthyAttr (some ("/img/probe.png".toList)) = true
    ∧ testCdnAvailability
        ⟨("cdn.example".toList), ("https://app.example".toList), none,
          some ("/img/probe.png".toList), none⟩ none
        = ProbeOutcome.started initProbeState
    ∧ probeRun (probeStep initProbeState .timeout)
        [ProbeEvent.load, ProbeEvent.error, ProbeEvent.load]
        = ⟨true, some false, [false]⟩ :=
  ⟨by decide,
   (claim4_probe_timeout
      ⟨("cdn.example".toList), ("https://app.example".toList), none,
        some ("/img/probe.png".toList), none⟩ (by decide)).1,
   (claim4_probe_timeout
      ⟨("cdn.example".toList), ("https://app.example".toList), none,
        some ("/img/probe.png".toList), none⟩ (by decide)).2
      [ProbeEvent.load, ProbeEvent.error, ProbeEvent.load]⟩

theorem second_application_fixed (D fb x : Str)
    (hA1 : leadsWith (httpsPre D) fb = false)
    (hA2 : leadsWith (httpPre D) fb = false)
    (hA3 : leadsWith (relPre D) fb = false)
    (hB1 : leadsWith (fb ++ slashStr) (httpsPre D) = true → fb ++ slashStr = httpsPre D)
    (hB2 : leadsWith (fb ++ slashStr) (httpPre D) = true → fb ++ slashStr = httpPre D)
    (hB3 : leadsWith (fb ++ slashStr) (relPre D) = true → fb ++ slashStr = relPre D) :
    cdnReplaceStart D fb (fb ++ slashStr ++ x) = fb ++ slashStr ++ x := by
  have hsl : slashStr = ['/'] := rfl
  have hfv : leadsWith (fb ++ slashStr) (fb ++ slashStr ++ x) = true :=
    leadsWith_append (fb ++ slashStr) x
  by_cases t1 : leadsWith (httpsPre D) (fb ++ slashStr ++ x) = true
  · have hps : fb ++ slashStr = httpsPre D := by
      rcases leadsWith_total (fb ++ slashStr ++ x) (httpsPre D) (fb ++ slashStr)
          t1 hfv with hc | hc
      · rw [hsl] at hc
        rcases leadsWith_snoc '/' fb (httpsPre D) hc with h | h
        · rw [hA1] at h; exact absurd h (by decide)
        · rw [hsl, h]
      · exact hB1 hc
    have hv : fb ++ slashStr ++ x = httpsPre D ++ x := by rw [hps]
    rw [hv, cdnReplaceStart_https, hps]
  · by_cases t2 : leadsWith (httpPre D) (fb ++ slashStr ++ x) = true
    · have hps : fb ++ slashStr = httpPre D := by
        rcases leadsWith_total (fb ++ slashStr ++ x) (httpPre D) (fb ++ slashStr)
            t2 hfv with hc | hc
        · rw [hsl] at hc
          rcases leadsWith_snoc '/' fb (httpPre D) hc with h | h
          · rw [hA2] at h; exact absurd h (by decide)
          · rw [hsl, h]
        · exact hB2 hc
      have hv : fb ++ slashStr ++ x = httpPre D ++ x := by rw [hps]
      rw [hv, cdnReplaceStart_http, hps]
    · by_cases t3 : leadsWith (relPre D) (fb ++ slashStr ++ x) = true
      · have hps : fb ++ slashStr = relPre D := by
          rcases leadsWith_total (fb ++ slashStr ++ x) (relPre D) (fb ++ slashStr)
              t3 hfv with hc | hc
          · rw [hsl] at hc
            rcases leadsWith_snoc '/' fb (relPre D) hc with h | h
            · rw [hA3] at h; exact absurd h (by decide)
            · rw [hsl, h]
          · exact hB3 hc
        have hv : fb ++ slashStr ++ x = relPre D ++ x := by rw [hps]
        rw [hv, cdnReplaceStart_rel, hps]
      · exact cdnReplaceStart_nomatch D fb (fb ++ slashStr ++ x) t1 t2 t3

/-- C5 counterexample: a fallbackDomain that neither matches the
delivery-domain prefix pattern at its start nor contains it anywhere can
still break idempotence — with cdnDomain "cdn.example" and fallbackDomain
"https:", rewriting "//cdn.example//cdn.example/a" once gives
"https://cdn.example/a", which matches the pattern again, and a second
rewrite changes the string to "https:/a". -/
theorem claim5_counterexample :
    leadsWith (httpsPre ("cdn.example".toList)) ("https:".toList) = false
    ∧ leadsWith (httpPre ("cdn.example".toList)) ("https:".toList) = false
    ∧ leadsWith (relPre ("cdn.example".toList)) ("https:".toList) = false
    ∧ containsSeq (relPre ("cdn.example".toList)) ("https:".toList) = false
    ∧ ¬ (generateFallbackUrl
          ⟨("cdn.example".toList), ("https:".toList), none, none, none⟩
          (generateFallbackUrl
            ⟨("cdn.example".toList), ("https:".toList), none, none, none⟩
            ("//cdn.example//cdn.example/a".toList))
        = generateFallbackUrl
            ⟨("cdn.example".toList), ("https:".toList), none, none, none⟩
            ("//cdn.example//cdn.example/a".toList)) := by
  refine ⟨by decide, by decide, by decide, by decide, by decide⟩

/-- C5 amended: generateFallbackUrl is idempotent whenever the
fallbackDomain does not start with any of the three matched prefixes and
fallbackDomain ++ "/" is not a proper initial segment of any of them
(so the rewritten output either fails the pattern or rewriting it is the
identity); and with fallbackDomain equal to "https://" ++ cdnDomain ++
"/sub", which does contain the delivery-domain pattern, a second
application changes the string again. -/
theorem claim5_amended (cfg : Config)
    (hA1 : leadsWith (httpsPre cfg.cdnDomain) cfg.fallbackDomain = false)
    (hA2 : leadsWith (httpPre cfg.cdnDomain) cfg.fallbackDomain = false)
    (hA3 : leadsWith (relPre cfg.cdnDomain) cfg.fallbackDomain = false)
    (hB1 : leadsWith (cfg.fallbackDomain ++ slashStr) (httpsPre cfg.cdnDomain) = true →
      cfg.fallbackDomain ++ slashStr = httpsPre cfg.cdnDomain)
    (hB2 : leadsWith (cfg.fallbackDomain ++ slashStr) (httpPre cfg.cdnDomain) = true →
      cfg.fallbackDomain ++ slashStr = httpPre cfg.cdnDomain)
    (hB3 : leadsWith (cfg.fallbackDomain ++ slashStr) (relPre cfg.cdnDomain) = true →
      cfg.fallbackDomain ++ slashStr = relPre cfg.cdnDomain) :
    (∀ u, generateFallbackUrl cfg (generateFallbackUrl cfg u)
        = generateFallbackUrl cfg u)
    ∧ (∀ x, generateFallbackUrl
          ⟨cfg.cdnDomain, httpsPre cfg.cdnDomain ++ ("sub".toList),
            cfg.testTimeout, cfg.testImagePath, cfg.enableSentry⟩
          (generateFallbackUrl
            ⟨cfg.cdnDomain, httpsPre cfg.cdnDomain ++ ("sub".toList),
              cfg.testTimeout, cfg.testImagePath, cfg.enableSentry⟩
            (relPre cfg.cdnDomain ++ x))
        ≠ generateFallbackUrl
            ⟨cfg.cdnDomain, httpsPre cfg.cdnDomain ++ ("sub".toList),
              cfg.testTimeout, cfg.testImagePath, cfg.enableSentry⟩
            (relPre cfg.cdnDomain ++ x)) := by
  constructor
  · intro u
    show cdnReplaceStart cfg.cdnDomain cfg.fallbackDomain
        (cdnReplaceStart cfg.cdnDomain cfg.fallbackDomain u)
      = cdnReplaceStart cfg.cdnDomain cfg.fallbackDomain u
    by_cases t1 : leadsWith (httpsPre cfg.cdnDomain) u = true
    · obtain ⟨x, rfl⟩ := (leadsWith_iff _ _).mp t1
      rw [cdnReplaceStart_https]
      exact second_application_fixed cfg.cdnDomain cfg.fallbackDomain x
        hA1 hA2 hA3 hB1 hB2 hB3
    · by_cases t2 : leadsWith (httpPre cfg.cdnDomain) u = true
      · obtain ⟨x, rfl⟩ := (leadsWith_iff _ _).mp t2
        rw [cdnReplaceStart_http]
        exact second_application_fixed cfg.cdnDomain cfg.fallbackDomain x
          hA1 hA2 hA3 hB1 hB2 hB3
      · by_cases t3 : leadsWith (relPre cfg.cdnDomain) u = true
        · obtain ⟨x, rfl⟩ := (leadsWith_iff _ _).mp t3
          rw [cdnReplaceStart_rel]
          exact second_application_fixed cfg.cdnDomain cfg.fallbackDomain x
            hA1 hA2 hA3 hB1 hB2 hB3
        · rw [cdnReplaceStart_nomatch cfg.cdnDomain cfg.fallbackDomain u t1 t2 t3]
          exact cdnReplaceStart_nomatch cfg.cdnDomain cfg.fallbackDomain u t1 t2 t3
  · intro x
    have e1 : generateFallbackUrl
        ⟨cfg.cdnDomain, httpsPre cfg.cdnDomain ++ ("sub".toList),
          cfg.testTimeout, cfg.testImagePath, cfg.enableSentry⟩
        (relPre cfg.cdnDomain ++ x)
        = (httpsPre cfg.cdnDomain ++ ("sub".toList)) ++ slashStr ++ x :=
      cdnReplaceStart_rel cfg.cdnDomain (httpsPre cfg.cdnDomain ++ ("sub".toList)) x
    have e2 : (httpsPre cfg.cdnDomain ++ ("sub".toList)) ++ slashStr ++ x
        = httpsPre cfg.cdnDomain ++ (("sub".toList) ++ slashStr ++ x) := by
      simp [List.append_assoc]
    have e3 : generateFallbackUrl
        ⟨cfg.cdnDomain, httpsPre cfg.cdnDomain ++ ("sub".toList),
          cfg.testTimeout, cfg.testImagePath, cfg.enableSentry⟩
        (httpsPre cfg.cdnDomain ++ (("sub".toList) ++ slashStr ++ x))
        = (httpsPre cfg.cdnDomain ++ ("sub".toList)) ++ slashStr
            ++ (("sub".toList) ++ slashStr ++ x) :=
      cdnReplaceStart_https cfg.cdnDomain (httpsPre cfg.cdnDomain ++ ("sub".toList))
        (("sub".toList) ++ slashStr ++ x)
    intro heq
    rw [e1, e2, e3] at heq
    have hlen := congrArg List.length heq
    have hs : ("sub".toList).length = 3 := rfl
    have hl : slashStr.length = 1 := rfl
    simp only [List.length_append, hs, hl] at hlen
    omega

theorem claim5_witness :
    leadsWith (httpsPre ("cdn.example".toList)) ("https://app.example".toList) = false
    ∧ generateFallbackUrl
        ⟨("cdn.example".toList), ("https://app.example".toList), none, none, none⟩
        (generateFallbackUrl
          ⟨("cdn.example".toList), ("https://app.example".toList), none, none, none⟩
          ("//cdn.example/a.png".toList))
        = generateFallbackUrl
            ⟨("cdn.example".toList), ("https://app.example".toList), none, none, none⟩
            ("//cdn.example/a.png".toList)
    ∧ generateFallbackUrl
        ⟨("cdn.example".toList), httpsPre ("cdn.example".toList) ++ ("sub".toList),
          none, none, none⟩
        (generateFallbackUrl
          ⟨("cdn.example".toList), httpsPre ("cdn.example".toList) ++ ("sub".toList),
            none, none, none⟩
          (relPre ("cdn.example".toList) ++ ("a.png".toList)))
        ≠ generateFallbackUrl
            ⟨("cdn.example".toList), httpsPre ("cdn.example".toList) ++ ("sub".toList),
              none, none, none⟩
            (relPre ("cdn.example".toList) ++ ("a.png".toList)) :=
  ⟨by decide,
   (claim5_amended
      ⟨("cdn.example".toList), ("https://app.example".toList), none, none, none⟩
      (by decide) (by decide) (by decide) (by decide) (by decide) (by decide)).1
      ("//cdn.example/a.png".toList),
   (claim5_amended
      ⟨("cdn.example".toList), ("https://app.example".toList), none, none, none⟩
      (by decide) (by decide) (by decide) (by decide) (by decide) (by decide)).2
      ("a.png".toList)⟩

theorem applyUrls_bg (cfg : Config) (b : Bool) : ∀ (urls : List Str) (e : Elem),
    (applyUrls cfg b urls e).cdnBackgroundProcessed = e.cdnBackgroundProcessed := by
  intro urls
  induction urls with
  | nil => intro e; rfl
  | cons url rest ih =>
    intro e
    simp only [applyUrls]
    rw [ih]
    split_ifs <;> rfl

theorem applyUrls_err (cfg : Config) (b : Bool) : ∀ (urls : List Str) (e : Elem),
    (applyUrls cfg b urls e).cdnErrorHandled = e.cdnErrorHandled := by
  intro urls
  induction urls with
  | nil => intro e; rfl
  | cons url rest ih =>
    intro e
    simp only [applyUrls]
    rw [ih]
    split_ifs <;> rfl

theorem replaceInline_marks (cfg : Config) (e : Elem) :
    (replaceInlineBackgroundImage cfg e).1.cdnBackgroundProcessed
        = e.cdnBackgroundProcessed
    ∧ (replaceInlineBackgroundImage cfg e).1.cdnErrorHandled = e.cdnErrorHandled := by
  simp only [replaceInlineBackgroundImage]
  split_ifs <;> exact ⟨rfl, rfl⟩

theorem replaceComputed_marks (cfg : Config) (e : Elem) (b : Bool) :
    (replaceComputedBackgroundImage cfg e b).cdnBackgroundProcessed
        = e.cdnBackgroundProcessed
    ∧ (replaceComputedBackgroundImage cfg e b).cdnErrorHandled = e.cdnErrorHandled := by
  simp only [replaceComputedBackgroundImage]
  split_ifs
  all_goals try exact ⟨rfl, rfl⟩
  cases hx : extractUrls e.computedBackgroundImage with
  | nil => exact ⟨rfl, rfl⟩
  | cons u us =>
    exact ⟨applyUrls_bg cfg b (u :: us) e, applyUrls_err cfg b (u :: us) e⟩


theorem replaceBackgroundImage_marks (cfg : Config) (e : Elem) :
    (replaceBackgroundImage cfg e).cdnBackgroundProcessed = e.cdnBackgroundProcessed
    ∧ (replaceBackgroundImage cfg e).cdnErrorHandled = e.cdnErrorHandled := by
  simp only [replaceBackgroundImage]
  split_ifs
  all_goals try exact ⟨rfl, rfl⟩
  all_goals try exact ⟨(replaceInline_marks cfg e).1, (replaceInline_marks cfg e).2⟩
  all_goals
    exact ⟨((replaceComputed_marks cfg _ _).1).trans ((replaceInline_marks cfg e).1),
      ((replaceComputed_marks cfg _ _).2).trans ((replaceInline_marks cfg e).2)⟩

theorem handleResourceError_bg (cfg : Config) (e : Elem) :
    (handleResourceError cfg e).elem.cdnBackgroundProcessed
      = e.cdnBackgroundProcessed := by
  simp only [handleResourceError, handleImageFallback, markElementProcessed]
  split_ifs <;> rfl

theorem handleResourceError_err (cfg : Config) (e : Elem)
    (h : e.cdnErrorHandled ≠ none) :
    (handleResourceError cfg e).elem.cdnErrorHandled ≠ none := by
  simp only [handleResourceError, handleImageFallback, markElementProcessed]
  split_ifs <;> simp_all

theorem handleNewElement_root_bg (cfg : Config) (av : Option Bool) (node : Elem)
    (ds : List Elem) :
    (handleNewElement cfg av node ds).1.elem.cdnBackgroundProcessed
      = node.cdnBackgroundProcessed := by
  simp only [handleNewElement, pureNode]
  split_ifs <;> first
    | rfl
    | exact handleResourceError_bg cfg node

theorem handleNewElement_root_err (cfg : Config) (av : Option Bool) (node : Elem)
    (ds : List Elem) (h : node.cdnErrorHandled ≠ none) :
    (handleNewElement cfg av node ds).1.elem.cdnErrorHandled ≠ none := by
  simp only [handleNewElement, pureNode, markElementProcessed]
  split_ifs <;> first
    | exact h
    | exact handleResourceError_err cfg node h
    | simp

theorem checkElementBackgroundStep_err (cfg : Config) (e : Elem) :
    (checkElementBackgroundStep cfg e).cdnErrorHandled = e.cdnErrorHandled := by
  simp only [checkElementBackgroundStep]
  split_ifs <;> first
    | rfl
    | exact (replaceBackgroundImage_marks cfg e).2

theorem replaceAllImagesStep_bg (cfg : Config) (e : Elem) :
    (replaceAllImagesStep cfg e).cdnBackgroundProcessed = e.cdnBackgroundProcessed := by
  simp only [replaceAllImagesStep, markElementProcessed]
  split_ifs <;> rfl

theorem replaceAllImagesStep_err (cfg : Config) (e : Elem)
    (h : e.cdnErrorHandled ≠ none) :
    (replaceAllImagesStep cfg e).cdnErrorHandled ≠ none := by
  simp only [replaceAllImagesStep, markElementProcessed]
  split_ifs <;> simp_all

theorem isProcessed_bg_of_eq {e f : Elem}
    (hp : f.cdnBackgroundProcessed = e.cdnBackgroundProcessed)
    (h : isElementProcessed e .background = true) :
    isElementProcessed f .background = true := by
  simp only [isElementProcessed, decide_eq_true_eq] at h ⊢
  rw [hp]
  exact h

/-- C6 counterexample: an element already carrying the error mark "true"
is not monotone under a further handleResourceError — the second call
overwrites the dataset value with "failed", and isElementProcessed,
which compares strictly against "true", drops back to false. -/
theorem claim6_counterexample :
    isElementProcessed
      { emptyElem with
        tagName := ("IMG".toList),
        src := some ("https://cdn.example/app/logo.png".toList),
        cdnErrorHandled := some ("true".toList) } .error = true
    ∧ isElementProcessed
        (handleResourceError
          ⟨("cdn.example/app".toList), ("https://app.example".toList), none, none, none⟩
          { emptyElem with
            tagName := ("IMG".toList),
            src := some ("https://cdn.example/app/logo.png".toList),
            cdnErrorHandled := some ("true".toList) }).elem .error = false := by
  exact ⟨by decide, by decide⟩

/-- C6 amended: processing marks are never removed — across
handleResourceError, the background engine (replaceBackgroundImage and
the checkElement step), the bulk image pass and the watcher, the
background mark, once true, stays true, and the error dataset entry,
once set, never returns to absent; but the error mark is not monotone
as a boolean: a second handleResourceError overwrites "true" with
"failed", after which isElementProcessed reads the element as
unprocessed for the error concern. -/
theorem claim6_amended (cfg : Config) (av : Option Bool) (ds : List Elem)
    (e : Elem) :
    (isElementProcessed e .background = true →
        isElementProcessed (handleResourceError cfg e).elem .background = true
      ∧ isElementProcessed (replaceBackgroundImage cfg e) .background = true
      ∧ isElementProcessed (checkElementBackgroundStep cfg e) .background = true
      ∧ isElementProcessed (replaceAllImagesStep cfg e) .background = true
      ∧ isElementProcessed (handleNewElement cfg av e ds).1.elem .background = true)
    ∧ (e.cdnErrorHandled ≠ none →
        (handleResourceError cfg e).elem.cdnErrorHandled ≠ none
      ∧ (replaceBackgroundImage cfg e).cdnErrorHandled = e.cdnErrorHandled
      ∧ (checkElementBackgroundStep cfg e).cdnErrorHandled = e.cdnErrorHandled
      ∧ (replaceAllImagesStep cfg e).cdnErrorHandled ≠ none
      ∧ (handleNewElement cfg av e ds).1.elem.cdnErrorHandled ≠ none) := by
  constructor
  · intro h
    refine ⟨?_, ?_, ?_, ?_, ?_⟩
    · exact isProcessed_bg_of_eq (handleResourceError_bg cfg e) h
    · exact isProcessed_bg_of_eq (replaceBackgroundImage_marks cfg e).1 h
    · have : checkElementBackgroundStep cfg e = e := by
        simp [checkElementBackgroundStep, h]
      rw [this]; exact h
    · exact isProcessed_bg_of_eq (replaceAllImagesStep_bg cfg e) h
    · exact isProcessed_bg_of_eq (handleNewElement_root_bg cfg av e ds) h
  · intro h
    refine ⟨?_, ?_, ?_, ?_, ?_⟩
    · exact handleResourceError_err cfg e h
    · exact (replaceBackgroundImage_marks cfg e).2
    · exact checkElementBackgroundStep_err cfg e
    · exact replaceAllImagesStep_err cfg e h
    · exact handleNewElement_root_err cfg av e ds h

theorem claim6_witness :
    isElementProcessed
      { emptyElem with cdnBackgroundProcessed := some ("true".toList) }
      .background = true
    ∧ isElementProcessed
        (handleResourceError
          ⟨("cdn.example".toList), ("https://app.example".toList), none, none, none⟩
          { emptyElem with cdnBackgroundProcessed := some ("true".toList) }).elem
        .background = true :=
  ⟨by decide,
   ((claim6_amended
      ⟨("cdn.example".toList), ("https://app.example".toList), none, none, none⟩
      (some false) []
      { emptyElem with cdnBackgroundProcessed := some ("true".toList) }).1
      (by decide)).1⟩

/-- C7: an element already carrying the error-handled mark that fails
again transitions to the terminal error-failed state — its dataset entry
becomes "failed", an IMG additionally gets display none, no deferred
reassignment is scheduled and no fallback element is created; and a
third failure (whose resource URL, now the fallback URL, no longer
contains the delivery domain) is a no-op: the element and the document
are left unchanged. -/
theorem claim7_terminal_failure (cfg : Config) (e : Elem)
    (h : isElementProcessed e .error = true) :
    (handleResourceError cfg e).elem.cdnErrorHandled = some ("failed".toList)
    ∧ (e.tagName = ("IMG".toList) →
        (handleResourceError cfg e).elem.styleDisplay = ("none".toList))
    ∧ (handleResourceError cfg e).deferredSrc = []
    ∧ (handleResourceError cfg e).created = []
    ∧ (¬ isCdnUrl cfg (jsOrStr (handleResourceError cfg e).elem.src
          (handleResourceError cfg e).elem.href) = true →
        handleResourceError cfg (handleResourceError cfg e).elem
          = ⟨(handleResourceError cfg e).elem, [], []⟩) := by
  have hfail : (handleResourceError cfg e).elem.cdnErrorHandled
      = some ("failed".toList) := by
    simp only [handleResourceError, h, if_true]
    split_ifs <;> rfl
  refine ⟨hfail, ?_, ?_, ?_, ?_⟩
  · intro htag
    simp only [handleResourceError, h, if_true]
    split_ifs with hc
    · rfl
    · exact absurd htag hc
  · simp only [handleResourceError, h, if_true]
  · simp only [handleResourceError, h, if_true]
  · intro h2
    have hne : ¬ isElementProcessed (handleResourceError cfg e).elem .error = true := by
      simp only [isElementProcessed, hfail]
      decide
    set e2 := (handleResourceError cfg e).elem with he2
    simp only [handleResourceError]
    rw [if_neg hne, if_pos h2]

theorem claim7_witness :
    isElementProcessed
      { emptyElem with
        tagName := ("IMG".toList),
        src := some ("https://app.example/l.png".toList),
        cdnErrorHandled := some ("true".toList) } .error = true
    ∧ (handleResourceError
        ⟨("cdn.example/app".toList), ("https://app.example".toList), none, none, none⟩
        { emptyElem with
          tagName := ("IMG".toList),
          src := some ("https://app.example/l.png".toList),
          cdnErrorHandled := some ("true".toList) }).elem.cdnErrorHandled
        = some ("failed".toList)
    ∧ (handleResourceError
        ⟨("cdn.example/app".toList), ("https://app.example".toList), none, none, none⟩
        { emptyElem with
          tagName := ("IMG".toList),
          src := some ("https://app.example/l.png".toList),
          cdnErrorHandled := some ("true".toList) }).elem.styleDisplay
        = ("none".toList)
    ∧ handleResourceError
        ⟨("cdn.example/app".toList), ("https://app.example".toList), none, none, none⟩
        (handleResourceError
          ⟨("cdn.example/app".toList), ("https://app.example".toList), none, none, none⟩
          { emptyElem with
            tagName := ("IMG".toList),
            src := some ("https://app.example/l.png".toList),
            cdnErrorHandled := some ("true".toList) }).elem
        = ⟨(handleResourceError
            ⟨("cdn.example/app".toList), ("https://app.example".toList), none, none, none⟩
            { emptyElem with
              tagName := ("IMG".toList),
              src := some ("https://app.example/l.png".toList),
              cdnErrorHandled := some ("true".toList) }).elem, [], []⟩ :=
  ⟨by decide,
   (claim7_terminal_failure
      ⟨("cdn.example/app".toList), ("https://app.example".toList), none, none, none⟩
      { emptyElem with
        tagName := ("IMG".toList),
        src := some ("https://app.example/l.png".toList),
        cdnErrorHandled := some ("true".toList) } (by decide)).1,
   (claim7_terminal_failure
      ⟨("cdn.example/app".toList), ("https://app.example".toList), none, none, none⟩
      { emptyElem with
        tagName := ("IMG".toList),
        src := some ("https://app.example/l.png".toList),
        cdnErrorHandled := some ("true".toList) } (by decide)).2.1 (by decide),
   (claim7_terminal_failure
      ⟨("cdn.example/app".toList), ("https://app.example".toList), none, none, none⟩
      { emptyElem with
        tagName := ("IMG".toList),
        src := some ("https://app.example/l.png".toList),
        cdnErrorHandled := some ("true".toList) } (by decide)).2.2.2.2 (by decide)⟩


theorem handleResourceError_img_deferred (cfg : Config) (e : Elem) (u : Str)
    (h1 : e.tagName = ("IMG".toList)) (h2 : e.src = some u) (h3 : u ≠ [])
    (h4 : containsSeq cfg.cdnDomain u = true)
    (h5 : isElementProcessed e .error = false) :
    (handleResourceError cfg e).deferredSrc = [generateFallbackUrl cfg u] := by
  have hro : jsOrStr e.src e.href = some u := by
    rw [h2]; simp [jsOrStr, h3]
  have hcdn : isCdnUrl cfg (some u) = true := by
    simp [isCdnUrl, h3, h4]
  have htag : (markElementProcessed e .error).tagName = ("IMG".toList) := h1
  simp only [handleResourceError, hro]
  rw [if_neg (by rw [h5]; decide)]
  rw [if_neg (by simp [hcdn])]
  rw [if_neg (by rw [htag]; decide)]
  rw [if_neg (by rw [htag]; intro hc; exact absurd hc.1 (by decide))]
  rw [if_pos htag]
  rfl

/-- C8: the dynamic-content watcher acts only while the probe result is
exactly Unavailable — for any other value (Unknown none or Available
true) handleNewElement returns the inserted node and all its descendants
untouched, with no deferred work; and an unprocessed delivery-domain IMG
inserted while the result is Unavailable is rewritten by the watcher
itself: after its deferred reassignment runs, its src is exactly the
generateFallbackUrl image of the original URL, with no checkElement call
involved. -/
theorem claim8_watcher (cfg : Config) (av : Option Bool) (node : Elem)
    (ds : List Elem) (u : Str) :
    (av ≠ some false → handleNewElement cfg av node ds = (pureNode node, ds.map pureNode))
    ∧ (node.tagName = ("IMG".toList) → node.src = some u → u ≠ [] →
        containsSeq cfg.cdnDomain u = true →
        isElementProcessed node .error = false →
        (applyDeferredSrc (handleNewElement cfg (some false) node ds).1.elem
            (handleNewElement cfg (some false) node ds).1.deferredSrc).src
          = some (generateFallbackUrl cfg u)) := by
  constructor
  · intro hav
    simp only [handleNewElement]
    rw [if_pos hav]
  · intro h1 h2 h3 h4 h5
    have htru : truthyAttr node.src = true := by rw [h2]; simp [truthyAttr, h3]
    have hcdn : isCdnUrl cfg node.src = true := by rw [h2]; simp [isCdnUrl, h3, h4]
    have hds : (handleNewElement cfg (some false) node ds).1
        = ⟨(handleResourceError cfg node).elem,
            (handleResourceError cfg node).deferredSrc,
            (handleResourceError cfg node).created, false⟩ := by
      simp only [handleNewElement]
      rw [if_neg (by simp), if_pos ⟨h1, htru, hcdn⟩, if_pos (by rw [h5]; decide)]
    rw [hds]
    rw [handleResourceError_img_deferred cfg node u h1 h2 h3 h4 h5]
    simp [applyDeferredSrc]

theorem claim8_witness :
    handleNewElement
        ⟨("cdn.example/app".toList), ("https://app.example".toList), none, none, none⟩
        none
        { emptyElem with
          tagName := ("IMG".toList),
          src := some ("https://cdn.example/app/logo.png".toList) } []
      = (pureNode
          { emptyElem with
            tagName := ("IMG".toList),
            src := some ("https://cdn.example/app/logo.png".toList) }, [])
    ∧ (applyDeferredSrc
        (handleNewElement
          ⟨("cdn.example/app".toList), ("https://app.example".toList), none, none, none⟩
          (some false)
          { emptyElem with
            tagName := ("IMG".toList),
            src := some ("https://cdn.example/app/logo.png".toList) } []).1.elem
        (handleNewElement
          ⟨("cdn.example/app".toList), ("https://app.example".toList), none, none, none⟩
          (some false)
          { emptyElem with
            tagName := ("IMG".toList),
            src := some ("https://cdn.example/app/logo.png".toList) } []).1.deferredSrc).src
      = some (generateFallbackUrl
          ⟨("cdn.example/app".toList), ("https://app.example".toList), none, none, none⟩
          ("https://cdn.example/app/logo.png".toList)) :=
  ⟨(claim8_watcher
      ⟨("cdn.example/app".toList), ("https://app.example".toList), none, none, none⟩
      none
      { emptyElem with
        tagName := ("IMG".toList),
        src := some ("https://cdn.example/app/logo.png".toList) } []
      ("https://cdn.example/app/logo.png".toList)).1 (by decide),
   (claim8_watcher
      ⟨("cdn.example/app".toList), ("https://app.example".toList), none, none, none⟩
      none
      { emptyElem with
        tagName := ("IMG".toList),
        src := some ("https://cdn.example/app/logo.png".toList) } []
      ("https://cdn.example/app/logo.png".toList)).2
      (by decide) (by decide) (by decide) (by decide) (by decide)⟩


/-- C9: evaluation of the init merge at the failing input.  init merges
the supplied fields over the shipped defaults and replaces an empty
fallbackDomain by the page origin, but the shipped defaultConfig of
defConfig.ts defines no testTimeout at all, so after init with only a
cdnDomain the active configuration's testTimeout is undefined (none),
not 3000 as the claim and the init doc comment state. -/
theorem claim9_defaults_eval (org c : Str) :
    (initConfig (some org) ⟨some c, none, none, none, none⟩).testTimeout = none
    ∧ (initConfig (some org) ⟨some c, none, none, none, none⟩).fallbackDomain = org
    ∧ (initConfig (some org) ⟨some c, none, none, none, none⟩).cdnDomain = c
    ∧ (initConfig (some org) ⟨some c, none, none, none, none⟩).testImagePath = none := by
  simp only [initConfig, mergeConfig, defaultConfig]
  split_ifs <;> exact ⟨rfl, rfl, rfl, rfl⟩

/-- C10: checkElementBackground changes nothing unless every gate
passes: if the probe result is not exactly Unavailable (some false), or
background fallback is disabled, or the selector resolves to no element,
the document state is returned unchanged — no style, class list, data
attribute or processing mark of any element is modified. -/
theorem claim10_checkElement_gate (cfg : Config) (cdnA : Option Bool)
    (target : Option (Elem × List Elem))
    (h : cdnA ≠ some false ∨ isBackgroundFallbackEnabled cfg = false ∨ target = none) :
    checkElementBackground cfg cdnA target = target := by
  cases target with
  | none => rfl
  | some p =>
    obtain ⟨el, children⟩ := p
    simp only [checkElementBackground]
    rcases h with h | h | h
    · rw [if_pos (Or.inl h)]
    · rw [if_pos (Or.inr (by rw [h]; decide))]
    · exact absurd h (by simp)

theorem claim10_witness :
    ((some true : Option Bool) ≠ some false)
    ∧ checkElementBackground
        ⟨("cdn.example".toList), ("https://app.example".toList), none,
          some ("/img/probe.png".toList), none⟩
        (some true) (some (emptyElem, [])) = some (emptyElem, []) :=
  ⟨by decide,
   claim10_checkElement_gate
     ⟨("cdn.example".toList), ("https://app.example".toList), none,
       some ("/img/probe.png".toList), none⟩
     (some true) (some (emptyElem, [])) (Or.inl (by decide))⟩
